import Mathlib

/-!
# Verification of the tiered caching / memory-retrieval subsystem

Shallow embedding of the core of the `Agents` repository:

* `app/memory/memory_manager.py` — exact (Redis) cache keying, per-session
  rate counters, and the ChromaDB semantic response cache;
* `app/agent.py` — `ResearchAgent.chat`, the tiered lookup orchestrator;
* `app/debate/card_formatter.py` — `extract_evidence_passage`, the fuzzy
  bag-of-words passage matcher and the sentence-context builder.

Python strings are modelled as `List Char` (Python indexes/length count code
points, which matches `List Char` exactly).  ASCII case-folding models
`str.lower` and the ASCII whitespace set models `str.strip`/`str.split`
(the repository feeds plain English text through these functions).
Python floats arising in the fuzzy score (`overlap / len * 100`) are modelled
as exact rationals: all numerators/denominators involved are tiny, so every
comparison against the thresholds coincides with the float computation.
External collaborators (the LLM, the embedding distance of the vector store,
the admin-config database values) are inputs to the embedded functions;
wall-clock time and TTL expiry are abstracted (an entry still present models
an unexpired entry).
-/

namespace Agents

/-! ## Python string primitives -/

/-- Python whitespace (ASCII part), as used by `str.strip()` / `str.split()`:
space, tab, newline, carriage return, vertical tab, form feed. -/
def isPySpace (c : Char) : Bool :=
  c.toNat = 32 || c.toNat = 9 || c.toNat = 10 || c.toNat = 13 ||
  c.toNat = 11 || c.toNat = 12

/-- `s.lower()` (ASCII case-folding). -/
def pyLower (s : List Char) : List Char := s.map Char.toLower

/-- `s.strip()`: remove leading and trailing whitespace. -/
def pyStrip (s : List Char) : List Char :=
  (s.dropWhile isPySpace).rdropWhile isPySpace

/-- Helper for `str.split()`: accumulate the current word (reversed) and cut
at whitespace. -/
def pySplitGo : List Char → List Char → List (List Char)
  | [], acc => if acc = [] then [] else [acc.reverse]
  | c :: rest, acc =>
    if isPySpace c then
      if acc = [] then pySplitGo rest []
      else acc.reverse :: pySplitGo rest []
    else pySplitGo rest (c :: acc)

/-- `s.split()`: split on runs of whitespace, dropping empty words. -/
def pySplit (s : List Char) : List (List Char) := pySplitGo s []

/-- `" ".join(ws)`. -/
def joinSpace (ws : List (List Char)) : List Char := List.intercalate [' '] ws

/-- Is `l1` an initial segment of `l2`? -/
def startsWith : List Char → List Char → Bool
  | [], _ => true
  | _ :: _, [] => false
  | a :: as, b :: bs => a = b && startsWith as bs

/-- First index (in code points) at which `sub` occurs in `s`, if any
(`str.find` returns this index, `-1` when absent). -/
def findSub (sub : List Char) : List Char → Option Nat
  | [] => if startsWith sub [] then some 0 else none
  | c :: t =>
    if startsWith sub (c :: t) then some 0
    else (findSub sub t).map (· + 1)

/-- Python `s.find(sub)`: code-point index of the first occurrence, else `-1`. -/
def pyFind (s sub : List Char) : Int :=
  match findSub sub s with
  | some i => (i : Int)
  | none => -1

/-! ### Lemmas about the primitives -/

theorem startsWith_exists_suffix {sub : List Char} : ∀ {s : List Char},
    startsWith sub s = true → ∃ t, sub ++ t = s := by
  induction sub with
  | nil => exact fun {s} _ => ⟨s, rfl⟩
  | cons a as ih =>
    intro s h
    match s with
    | [] => exact absurd h (by simp [startsWith])
    | b :: bs =>
      unfold startsWith at h
      rw [Bool.and_eq_true] at h
      obtain ⟨t, ht⟩ := ih h.2
      refine ⟨t, ?_⟩
      rw [List.cons_append, ht]
      have hab : a = b := by simpa using h.1
      rw [hab]

theorem findSub_some_isInfix {sub s : List Char} {i : Nat}
    (h : findSub sub s = some i) : sub <:+: s := by
  induction s generalizing i with
  | nil =>
    unfold findSub at h
    split at h
    · next hp =>
      obtain ⟨t, ht⟩ := startsWith_exists_suffix hp
      exact ⟨[], t, by simpa using ht⟩
    · exact Option.noConfusion h
  | cons c t ih =>
    unfold findSub at h
    split at h
    · next hp =>
      obtain ⟨u, hu⟩ := startsWith_exists_suffix hp
      exact ⟨[], u, by simpa using hu⟩
    · next =>
      cases hf : findSub sub t with
      | none => rw [hf] at h; exact Option.noConfusion h
      | some j =>
        obtain ⟨u, v, huv⟩ := ih hf
        exact ⟨c :: u, v, by rw [List.cons_append, List.cons_append, huv]⟩

theorem pyFind_ne_neg_one_isInfix {s sub : List Char}
    (h : pyFind s sub ≠ -1) : sub <:+: s := by
  unfold pyFind at h
  cases hf : findSub sub s with
  | none => rw [hf] at h; exact absurd rfl h
  | some i => exact findSub_some_isInfix hf

/-- `Char.toLower` fixes characters that are not ASCII uppercase letters. -/
theorem Char.toLower_of_not_upper {c : Char}
    (h : ¬(65 ≤ c.toNat ∧ c.toNat ≤ 90)) : c.toLower = c := by
  unfold Char.toLower
  simp only [if_neg h]

/-- The code point of `Char.toLower` of an ASCII uppercase letter. -/
theorem Char.toNat_toLower_of_upper {c : Char}
    (h : 65 ≤ c.toNat ∧ c.toNat ≤ 90) : c.toLower.toNat = c.toNat + 32 := by
  unfold Char.toLower
  simp only [if_pos h]
  have hv : (c.toNat + 32).isValidChar := by
    left
    omega
  simp only [Char.ofNat, dif_pos hv]
  rfl

theorem Char.toLower_toLower (c : Char) : c.toLower.toLower = c.toLower := by
  by_cases h : 65 ≤ c.toNat ∧ c.toNat ≤ 90
  · apply Char.toLower_of_not_upper
    rw [Char.toNat_toLower_of_upper h]
    omega
  · rw [Char.toLower_of_not_upper h, Char.toLower_of_not_upper h]

theorem isPySpace_toLower (c : Char) : isPySpace c.toLower = isPySpace c := by
  by_cases h : 65 ≤ c.toNat ∧ c.toNat ≤ 90
  · have hn := Char.toNat_toLower_of_upper h
    have h1 : isPySpace c = false := by
      simp only [isPySpace, Bool.or_eq_false_iff, decide_eq_false_iff_not]
      omega
    have h2 : isPySpace c.toLower = false := by
      simp only [isPySpace, hn, Bool.or_eq_false_iff, decide_eq_false_iff_not]
      omega
    rw [h1, h2]
  · rw [Char.toLower_of_not_upper h]

theorem dropWhile_rdropWhile_comm (p : Char → Bool) (l : List Char) :
    (l.rdropWhile p).dropWhile p = (l.dropWhile p).rdropWhile p := by
  induction l using List.reverseRecOn with
  | nil => simp
  | append_singleton l x ih =>
    by_cases hx : p x
    · rw [List.rdropWhile_concat_pos p l x hx, ih]
      rw [List.dropWhile_append]
      by_cases hl : (l.dropWhile p).isEmpty
      · rw [if_pos hl]
        rw [List.isEmpty_iff] at hl
        rw [hl, List.rdropWhile_nil]
        simp [List.dropWhile, hx]
      · rw [if_neg hl]
        rw [List.rdropWhile_concat_pos _ _ _ hx]
    · rw [List.rdropWhile_concat_neg p l x hx]
      rw [List.dropWhile_append]
      by_cases hl : (l.dropWhile p).isEmpty
      · rw [if_pos hl]
        have hdx : List.dropWhile p [x] = [x] := by simp [List.dropWhile, hx]
        rw [hdx, List.rdropWhile_singleton, if_neg hx]
      · rw [if_neg hl]
        rw [List.rdropWhile_concat_neg _ _ _ hx]

theorem pyStrip_idem (l : List Char) : pyStrip (pyStrip l) = pyStrip l := by
  unfold pyStrip
  rw [dropWhile_rdropWhile_comm, List.dropWhile_idempotent,
    List.rdropWhile_idempotent]

theorem map_toLower_dropWhile (l : List Char) :
    (l.dropWhile isPySpace).map Char.toLower =
      (l.map Char.toLower).dropWhile isPySpace := by
  rw [List.dropWhile_map,
    show (isPySpace ∘ Char.toLower) = isPySpace from funext isPySpace_toLower]

theorem map_toLower_rdropWhile (l : List Char) :
    (l.rdropWhile isPySpace).map Char.toLower =
      (l.map Char.toLower).rdropWhile isPySpace := by
  unfold List.rdropWhile
  rw [List.map_reverse, map_toLower_dropWhile, List.map_reverse]

theorem pyLower_pyStrip_comm (l : List Char) :
    pyLower (pyStrip l) = pyStrip (pyLower l) := by
  unfold pyStrip pyLower
  rw [map_toLower_rdropWhile, map_toLower_dropWhile]

theorem pyLower_idem (l : List Char) : pyLower (pyLower l) = pyLower l := by
  unfold pyLower
  rw [List.map_map]
  congr 1
  funext c
  exact Char.toLower_toLower c

/-! ## Memory manager (`app/memory/memory_manager.py`) -/

/-- The normalization applied before hashing the exact-cache key:
`query.lower().strip()` (lower-case, then trim). -/
def normalizeQuery (query : List Char) : List Char := pyStrip (pyLower query)

/-- `MemoryManager._cache_key`: `"agent:cache:" + md5(query.lower().strip()).hexdigest()`.
The MD5 hex digest is an external library function, passed in as `md5hex`. -/
def cache_key (md5hex : List Char → List Char) (query : List Char) : List Char :=
  "agent:cache:".data ++ md5hex (normalizeQuery query)

/-- `MemoryManager.SEMANTIC_CACHE_THRESHOLD = 0.35`. -/
def SEMANTIC_CACHE_THRESHOLD : ℚ := 35 / 100

/-- An entry of the ChromaDB `agent_responses` collection, as written by
`MemoryManager.cache_response_semantic` (document = response text, metadata =
originating query (truncated to 500 chars), role `"assistant"`, session id;
the timestamp identity is abstracted). -/
structure RespEntry where
  document : String
  query : String
  role : String
  session_id : String
  deriving DecidableEq, Repr

/-- The vector store's 1-nearest-neighbour query over the response collection
restricted by the metadata filter `where={"role": "assistant"}`, given the
embedding distance `dist` of each stored entry from the query text
(the distance function is the external embedding model).  Ties keep the
earlier entry. -/
def nearestAssistant (entries : List RespEntry) (dist : RespEntry → ℚ) :
    Option (RespEntry × ℚ) :=
  entries.foldl
    (fun acc e =>
      if e.role = "assistant" then
        match acc with
        | none => some (e, dist e)
        | some (_, d0) => if dist e < d0 then some (e, dist e) else acc
      else acc)
    none

/-- `MemoryManager.get_semantic_cache`: hit iff the nearest assistant-role
neighbour's distance is strictly below the threshold; on a hit, return the
stored response together with `1 - distance`. -/
def get_semantic_cache (entries : List RespEntry) (dist : RespEntry → ℚ) :
    Option (String × ℚ) :=
  match nearestAssistant entries dist with
  | none => none
  | some (e, distance) =>
    if distance < SEMANTIC_CACHE_THRESHOLD then
      some (e.document, 1 - distance)
    else
      none

/-- `MemoryManager.get_rate_limit`: remaining budget out of 100 for a session,
from the Redis counter value (`none` models an absent/expired key). -/
def get_rate_limit (counters : List (String × Nat)) (session_id : String) : Nat :=
  match counters.lookup ("agent:ratelimit:" ++ session_id) with
  | none => 100
  | some count => 100 - count

/-- Overwrite-or-insert for the association lists modelling Redis keys. -/
def kvSet (kvs : List (String × Nat)) (k : String) (v : Nat) :
    List (String × Nat) :=
  (k, v) :: kvs.filter (fun p => p.1 ≠ k)

/-- `MemoryManager.increment_rate_limit`: atomic `INCR` (missing key counts
as 0) followed by `EXPIRE` (expiry abstracted). -/
def increment_rate_limit (counters : List (String × Nat)) (session_id : String) :
    List (String × Nat) :=
  let k := "agent:ratelimit:" ++ session_id
  kvSet counters k (((counters.lookup k).getD 0) + 1)

/-! ## Card formatter (`app/debate/card_formatter.py`) -/

/-- `set(w.lower() for w in target.split() if len(w) > 3)`: the candidate's
distinct significant words (longer than 3 characters, case-insensitive).
Represented as a duplicate-free list. -/
def sigWords (target : List Char) : List (List Char) :=
  (((pySplit target).filter (fun w => 3 < w.length)).map pyLower).dedup

/-- The significant words of one sliding window of the source
(`set(w.lower() for w in window if len(w) > 3)`; duplicates are irrelevant to
membership, so no `dedup` is needed). -/
def windowSig (sourceWords : List (List Char)) (wsize i : Nat) :
    List (List Char) :=
  (((sourceWords.drop i).take wsize).filter (fun w => 3 < w.length)).map pyLower

/-- `overlap / len(target_words) * 100` for window position `i`. -/
def windowScore (targetSig : List (List Char)) (sourceWords : List (List Char))
    (wsize i : Nat) : ℚ :=
  ((targetSig.filter (fun w => w ∈ windowSig sourceWords wsize i)).length : ℚ) /
    (targetSig.length : ℚ) * 100

/-- The window at position `i` expanded by 20 words on each side
(`" ".join(source_words[max(0, i-20) : min(len, i+wsize+20)])`). -/
def expandedWindow (sourceWords : List (List Char)) (wsize i : Nat) :
    List Char :=
  joinSpace ((sourceWords.drop (i - 20)).take
    (min sourceWords.length (i + wsize + 20) - (i - 20)))

/-- The back-computed approximate character offset of the expanded window:
`len(" ".join(source_words[:max(0, i-20)]))`. -/
def windowCharOffset (sourceWords : List (List Char)) (i : Nat) : Int :=
  ((joinSpace (sourceWords.take (i - 20))).length : Int)

/-- The loop accumulator of `CardFormatter._find_similar_passage`
(`best_match`, `best_score`, `best_start`). -/
structure FuzzyAcc where
  best_match : List Char
  best_score : ℚ
  best_start : Int
  deriving DecidableEq, Repr

/-- One iteration of the `_find_similar_passage` loop: update the accumulator
when the window's score strictly beats the best so far and meets the
threshold. -/
def fuzzyStep (targetSig sourceWords : List (List Char)) (wsize : Nat)
    (threshold : ℚ) (acc : FuzzyAcc) (i : Nat) : FuzzyAcc :=
  let score := windowScore targetSig sourceWords wsize i
  if score > acc.best_score ∧ score ≥ threshold then
    { best_match := expandedWindow sourceWords wsize i
      best_score := score
      best_start := windowCharOffset sourceWords i }
  else acc

/-- The window positions iterated by the loop:
`range(len(source_words) - window_size + 1)` (empty when the source has fewer
words than the window; `Nat` subtraction clamps exactly like Python's empty
`range` on a negative bound). -/
def fuzzyPositions (sourceWords : List (List Char)) (wsize : Nat) : List Nat :=
  List.range (sourceWords.length + 1 - wsize)

/-- `CardFormatter._find_similar_passage(target, source, threshold)`:
returns `(best_match, best_start)`, `("", -1)` when the candidate has no
significant words or no window reaches the threshold.  The callers use the
default `threshold = 50`. -/
def find_similar_passage (target source : List Char) (threshold : ℚ) :
    List Char × Int :=
  let target_words := sigWords target
  if target_words = [] then ([], -1)
  else
    let source_words := pySplit source
    let window_size := max (pySplit target).length 10
    let acc := (fuzzyPositions source_words window_size).foldl
      (fuzzyStep target_words source_words window_size threshold)
      ⟨[], 0, -1⟩
    (acc.best_match, acc.best_start)

/-- One sentence of `re.finditer(r'[^.!?]*[.!?]|[^.!?]+$', source)`:
the raw matched text together with its start and end offsets.  The matches
tile the source: each is a (possibly empty) run of non-terminator characters
followed by one of `.!?`, plus a trailing terminator-free run. -/
def sentenceRuns : List Char → Nat → List Char → Nat → List (List Char × Nat × Nat)
  | [], pos, acc, accStart =>
    if acc = [] then [] else [(acc.reverse, accStart, pos)]
  | c :: rest, pos, acc, accStart =>
    if c = '.' ∨ c = '!' ∨ c = '?' then
      ((c :: acc).reverse, accStart, pos + 1) ::
        sentenceRuns rest (pos + 1) [] (pos + 1)
    else
      sentenceRuns rest (pos + 1) (c :: acc) accStart

/-- The sentence list of `_build_context_passage`: each matched run stripped,
with its raw start/end offsets. -/
def pySentences (source : List Char) : List (List Char × Nat × Nat) :=
  (sentenceRuns source 0 [] 0).map (fun t => (pyStrip t.1, t.2.1, t.2.2))

/-- `CardFormatter._build_context_passage`. -/
def build_context_passage (source_text passage : List Char)
    (passage_start : Int) (sentences_before sentences_after : Nat) :
    List Char :=
  if passage = [] then []
  else
    let ps1 : Int :=
      if passage_start < 0 then pyFind source_text passage else passage_start
    let ps : Nat := if ps1 < 0 then 0 else ps1.toNat
    let sentences := pySentences source_text
    if sentences = [] then passage
    else
      match sentences.findIdx? (fun t => t.2.1 ≤ ps ∧ ps < t.2.2) with
      | none =>
        -- fallback to a 400-character radius window
        pyStrip ((source_text.drop (ps - 400)).take
          (min source_text.length (ps + passage.length + 400) - (ps - 400)))
      | some idx =>
        let start_sentence := idx - sentences_before
        let end_sentence := min sentences.length (idx + sentences_after + 1)
        let context_sentences :=
          ((sentences.drop start_sentence).take
            (end_sentence - start_sentence)).map (fun t => t.1)
        let context_text := pyStrip (joinSpace context_sentences)
        let context_text2 :=
          if findSub passage context_text = none ∧ pyStrip passage ≠ [] then
            if context_text ≠ [] then context_text ++ '\n' :: passage
            else passage
          else context_text
        pyStrip context_text2

/-- The JSON object parsed from a successful LLM response inside
`extract_evidence_passage` (missing keys default to `""` via `dict.get`),
plus the reported token usage (`None` usage falls back to 500). -/
structure LlmExtract where
  passage : List Char
  start_context : List Char
  relevance : List Char
  tokens : Option Nat
  deriving DecidableEq, Repr

/-- The dictionary returned by `CardFormatter.extract_evidence_passage`
(`context_passage` / `error` keys are absent on some branches, modelled with
`Option`). -/
structure ExtractResult where
  passage : List Char
  context_passage : Option (List Char)
  start_context : List Char
  relevance : List Char
  success : Bool
  error : Option (List Char)
  deriving DecidableEq, Repr

/-- A `track_usage` write performed during extraction (endpoint, tokens). -/
structure UsageEvent where
  endpoint : String
  tokens : Nat
  deriving DecidableEq, Repr

/-- `CardFormatter.extract_evidence_passage(original_content, claim_or_summary)`.

External inputs: the admin rate-limit check (`rateAllowed`, with its optional
`reason`) and the LLM call outcome `llm` (`Except.error` covers both an API
error and an unparseable response, which raise before `track_usage` runs).
Returns the result dictionary together with the list of usage-tracking
writes performed. -/
def extract_evidence_passage (original_content claim_or_summary : List Char)
    (rateAllowed : Bool) (rateReason : Option (List Char))
    (llm : Except (List Char) LlmExtract) :
    ExtractResult × List UsageEvent :=
  if original_content = [] ∨ (pyStrip original_content).length < 100 then
    ({ passage := []
       context_passage := none
       start_context := []
       relevance := []
       success := false
       error := some "Source content too short".data }, [])
  else if rateAllowed = false then
    ({ passage := original_content.take 500
       context_passage := none
       start_context := "Rate limit - using first 500 chars".data
       relevance := "Automatic fallback".data
       success := false
       error := rateReason }, [])
  else
    match llm with
    | Except.ok r =>
      let tokens_used := r.tokens.getD 500
      let passage0 := r.passage
      let start0 : Int :=
        if passage0 ≠ [] then pyFind original_content passage0 else -1
      let pp : List Char × Int :=
        if passage0 ≠ [] ∧ start0 = -1 then
          find_similar_passage passage0 original_content 50
        else (passage0, start0)
      let context_passage :=
        build_context_passage original_content pp.1 pp.2 2 2
      ({ passage := pp.1
         context_passage := some context_passage
         start_context := r.start_context
         relevance := r.relevance
         success := pp.1 ≠ []
         error := none },
       [⟨"extract_evidence_passage", tokens_used⟩])
    | Except.error e =>
      let fallback_passage := original_content.take 500
      let context_passage :=
        build_context_passage original_content fallback_passage 0 0 2
      ({ passage := fallback_passage
         context_passage := some context_passage
         start_context := "Extraction failed - using start of document".data
         relevance := "Automatic fallback".data
         success := false
         error := some e }, [])

/-! ## Research agent (`app/agent.py`) -/

/-- Result of `AdminConfigManager.check_rate_limit` as consumed by
`ResearchAgent.chat` (the admin-config database is external, so the check's
outcome is an input). -/
structure AdminRateCheck where
  allowed : Bool
  reason : Option String
  deriving DecidableEq, Repr

/-- An entry of the ChromaDB `agent_memory` collection, as written by
`MemoryManager.store_memory` (timestamp identity abstracted). -/
structure MemEntry where
  content : String
  session_id : String
  role : String
  deriving DecidableEq, Repr

/-- A row of the PostgreSQL `conversations` table
(`MemoryManager.log_conversation`; `created_at`/`response_time_ms` are
wall-clock values, abstracted). -/
structure ConvRow where
  session_id : String
  role : String
  content : String
  tokens : Nat
  deriving DecidableEq, Repr

/-- One `MemoryManager.update_stats` upsert (tokens, cache_hit), recorded as
an event (the SQL aggregation over the `agent_stats` row is external). -/
structure StatsEvent where
  tokens : Nat
  cache_hit : Bool
  deriving DecidableEq, Repr

/-- One `AdminConfigManager.track_usage` insert from `chat`. -/
structure ChatUsageRow where
  endpoint : String
  tokens : Nat
  session_id : String
  deriving DecidableEq, Repr

/-- The mutable stores touched by `ResearchAgent.chat`.  `redis` holds the
exact-cache keys (`agent:cache:<md5>`), `rate` the per-session counters
(`agent:ratelimit:<session>`); the two key families are disjoint, so they are
modelled as separate association lists of the same Redis instance. -/
structure AgentState where
  redis : List (String × String)
  rate : List (String × Nat)
  respColl : List RespEntry
  memColl : List MemEntry
  convLog : List ConvRow
  stats : List StatsEvent
  usage : List ChatUsageRow
  deriving DecidableEq

/-- `MemoryManager.get_cached_response`: Redis exact-match lookup
(`if cached:` — an empty stored value is falsy and reported as a miss). -/
def get_cached_response (md5hex : List Char → List Char)
    (redis : List (String × String)) (query : String) : Option String :=
  match redis.lookup (String.mk (cache_key md5hex query.data)) with
  | none => none
  | some v => if v = "" then none else some v

/-- `MemoryManager.cache_response`: Redis `SETEX` (TTL abstracted). -/
def cache_response (md5hex : List Char → List Char)
    (redis : List (String × String)) (query response : String) :
    List (String × String) :=
  (String.mk (cache_key md5hex query.data), response) ::
    redis.filter (fun p => p.1 ≠ String.mk (cache_key md5hex query.data))

/-- `MemoryManager.store_memory`. -/
def store_memory (st : AgentState) (session_id content role : String) :
    AgentState :=
  { st with memColl := st.memColl ++ [⟨content, session_id, role⟩] }

/-- `MemoryManager.cache_response_semantic`: add the response (document) to
the response collection with the truncated query, role `"assistant"`. -/
def cache_response_semantic (st : AgentState) (query response session_id : String) :
    AgentState :=
  { st with respColl := st.respColl ++
      [⟨response, String.mk (query.data.take 500), "assistant", session_id⟩] }

/-- `MemoryManager.log_conversation`. -/
def log_conversation (st : AgentState) (session_id role content : String)
    (tokens : Nat) : AgentState :=
  { st with convLog := st.convLog ++ [⟨session_id, role, content, tokens⟩] }

/-- `MemoryManager.update_stats`. -/
def update_stats (st : AgentState) (tokens : Nat) (cache_hit : Bool) :
    AgentState :=
  { st with stats := st.stats ++ [⟨tokens, cache_hit⟩] }

/-- `AdminConfigManager.track_usage` as called from `chat` (the
`enable_usage_tracking` flag is read from the external admin database). -/
def track_usage_chat (st : AgentState) (usageEnabled : Bool) (tokens : Nat)
    (session_id : String) : AgentState :=
  if usageEnabled then
    { st with usage := st.usage ++ [⟨"chat", tokens, session_id⟩] }
  else st

/-- External inputs consumed during one `ResearchAgent.chat` call:
the admin-config rate check, the `enable_usage_tracking` flag, the embedding
distance of each response-collection entry from the query (the vector
store's embedding model), and the LLM call outcome
(`Except.ok (assistant_message, total_tokens)` or an error). -/
structure ChatOracle where
  adminCheck : AdminRateCheck
  usageEnabled : Bool
  dist : RespEntry → ℚ
  memSearch : List MemEntry
  llm : Except String (String × Nat)

/-- The dictionary returned by `ResearchAgent.chat` (keys absent on some
branches are `Option`; `response_time_ms` is wall-clock, abstracted). -/
structure ChatResult where
  success : Bool
  response : Option String
  error : Option String
  session_id : String
  cached : Option Bool
  cache_type : Option String
  similarity_score : Option ℚ
  tokens_used : Option Nat
  rate_limit_info : Option AdminRateCheck
  memories_used : Option Nat
  deriving DecidableEq

/-- A `ChatResult` with only `success`/`error`/`session_id` set. -/
def chatFailure (error : String) (session_id : String) : ChatResult :=
  { success := false
    response := none
    error := some error
    session_id := session_id
    cached := none
    cache_type := none
    similarity_score := none
    tokens_used := none
    rate_limit_info := none
    memories_used := none }

/-- `ResearchAgent.chat(message, session_id, use_cache, use_memory)`.

Orchestration, in source order: admin rate check → per-session rate check →
Redis exact cache → ChromaDB semantic cache → context assembly → LLM call
(with `track_usage` inside the `try`) → conversation log, memory fragments,
both cache writes, stats, rate-counter increment.  `md5hex` is the external
MD5 hex digest used for exact-cache keys. -/
def chat (md5hex : List Char → List Char) (st : AgentState)
    (message session_id : String) (use_cache use_memory : Bool)
    (o : ChatOracle) : ChatResult × AgentState :=
  if o.adminCheck.allowed = false then
    ({ chatFailure (o.adminCheck.reason.getD "Rate limit exceeded") session_id
        with rate_limit_info := some o.adminCheck }, st)
  else if get_rate_limit st.rate session_id = 0 then
    (chatFailure "Rate limit exceeded. Please try again later." session_id, st)
  else
    match (if use_cache then get_cached_response md5hex st.redis message
           else none) with
    | some cached_response =>
      ({ success := true
         response := some cached_response
         error := none
         session_id := session_id
         cached := some true
         cache_type := some "redis_exact"
         similarity_score := none
         tokens_used := some 0
         rate_limit_info := none
         memories_used := none },
       update_stats st 0 true)
    | none =>
      match (if use_cache then get_semantic_cache st.respColl o.dist
             else none) with
      | some (response_text, similarity) =>
        ({ success := true
           response := some response_text
           error := none
           session_id := session_id
           cached := some true
           cache_type := some "chromadb_semantic"
           similarity_score := some similarity
           tokens_used := some 0
           rate_limit_info := none
           memories_used := none },
         update_stats st 0 true)
      | none =>
        -- relevant_memories: the vector store's top-3 answer over the memory
        -- collection (external ranking, hence part of the oracle); they and
        -- the conversation history only assemble the LLM prompt
        let relevant_memories := if use_memory then o.memSearch else []
        match o.llm with
        | Except.error e =>
          (chatFailure ("OpenAI API error: " ++ e) session_id, st)
        | Except.ok (assistant_message, tokens_used) =>
          let st1 := track_usage_chat st o.usageEnabled tokens_used session_id
          let st2 := log_conversation st1 session_id "user" message 0
          let st3 :=
            log_conversation st2 session_id "assistant" assistant_message
              tokens_used
          let st4 := store_memory st3 session_id message "user"
          let st5 := store_memory st4 session_id assistant_message "assistant"
          let st6 :=
            if use_cache then
              cache_response_semantic
                { st5 with
                    redis := cache_response md5hex st5.redis message
                      assistant_message }
                message assistant_message session_id
            else st5
          let st7 := update_stats st6 tokens_used false
          let st8 := { st7 with
            rate := increment_rate_limit st7.rate session_id }
          ({ success := true
             response := some assistant_message
             error := none
             session_id := session_id
             cached := some false
             cache_type := none
             similarity_score := none
             tokens_used := some tokens_used
             rate_limit_info := none
             memories_used := some relevant_memories.length },
           st8)

/-! ## Claims -/

/-- C1: the semantic-cache lookup is a hit exactly when the nearest
assistant-role neighbour's distance is strictly less than 0.35 (a candidate
at exactly 0.35 is a miss, strictly below is a hit), and on a hit the stored
response text is returned with similarity score `1 - distance`. -/
theorem c1_semantic_cache_threshold (entries : List RespEntry)
    (dist : RespEntry → ℚ) :
    (nearestAssistant entries dist = none →
      get_semantic_cache entries dist = none) ∧
    (∀ e d, nearestAssistant entries dist = some (e, d) →
      get_semantic_cache entries dist =
        if d < 35 / 100 then some (e.document, 1 - d) else none) := by
  constructor
  · intro h
    unfold get_semantic_cache
    rw [h]
  · intro e d h
    unfold get_semantic_cache
    rw [h]
    rfl

/-- Witness for C1: a single assistant-role entry at distance 0.349 is a hit
with similarity 0.651; the same entry at distance exactly 0.35 is a miss. -/
theorem c1_semantic_cache_threshold_witness :
    get_semantic_cache [⟨"stored response", "q", "assistant", "s"⟩]
        (fun _ => 349 / 1000) = some ("stored response", 651 / 1000) ∧
    get_semantic_cache [⟨"stored response", "q", "assistant", "s"⟩]
        (fun _ => 35 / 100) = none := by
  constructor
  · have h := (c1_semantic_cache_threshold
      [⟨"stored response", "q", "assistant", "s"⟩] (fun _ => 349 / 1000)).2
      ⟨"stored response", "q", "assistant", "s"⟩ (349 / 1000) rfl
    rw [h, if_pos (by norm_num)]
    norm_num
  · have h := (c1_semantic_cache_threshold
      [⟨"stored response", "q", "assistant", "s"⟩] (fun _ => 35 / 100)).2
      ⟨"stored response", "q", "assistant", "s"⟩ (35 / 100) rfl
    rw [h, if_neg (by norm_num)]

/-- C9: the cache-key normalization (`query.lower().strip()`) is idempotent,
and two queries that agree after trimming outer whitespace and case-folding
produce the identical exact-cache key, whatever the (deterministic) MD5 hex
digest computes. -/
theorem c9_cache_key_normalization :
    (∀ q : List Char, normalizeQuery (normalizeQuery q) = normalizeQuery q) ∧
    (∀ (md5hex : List Char → List Char) (q1 q2 : List Char),
      pyLower (pyStrip q1) = pyLower (pyStrip q2) →
      cache_key md5hex q1 = cache_key md5hex q2) := by
  constructor
  · intro q
    unfold normalizeQuery
    rw [pyLower_pyStrip_comm, pyLower_idem, pyStrip_idem]
  · intro md5hex q1 q2 h
    rw [pyLower_pyStrip_comm, pyLower_pyStrip_comm] at h
    unfold cache_key normalizeQuery
    rw [h]

/-- Witness for C9: `"  Arctic COD "` and `"arctic cod"` differ only by case
and outer whitespace and get the same key; normalization is idempotent on
the former. -/
theorem c9_cache_key_normalization_witness :
    normalizeQuery (normalizeQuery "  Arctic COD ".data) =
      normalizeQuery "  Arctic COD ".data ∧
    cache_key id "  Arctic COD ".data = cache_key id "arctic cod".data := by
  exact ⟨c9_cache_key_normalization.1 "  Arctic COD ".data,
    c9_cache_key_normalization.2 id "  Arctic COD ".data "arctic cod".data
      (by decide)⟩

/-- C5: a source whose trimmed content is shorter than 100 characters makes
`extract_evidence_passage` fail immediately with the structured
"source too short" result — `success = false`, empty passage — performing no
usage-tracking write; the result is the same for every LLM outcome (it is
never called) and every rate-check outcome. -/
theorem c5_source_too_short (content claim : List Char) (rateAllowed : Bool)
    (rateReason : Option (List Char)) (llm : Except (List Char) LlmExtract)
    (h : (pyStrip content).length < 100) :
    extract_evidence_passage content claim rateAllowed rateReason llm =
      ({ passage := []
         context_passage := none
         start_context := []
         relevance := []
         success := false
         error := some "Source content too short".data }, []) := by
  unfold extract_evidence_passage
  rw [if_pos (Or.inr h)]

/-- Witness for C5: a 20-character source is rejected identically under two
different LLM oracles. -/
theorem c5_source_too_short_witness :
    extract_evidence_passage "too short a source".data "claim".data true none
        (Except.error "boom".data) =
      ({ passage := []
         context_passage := none
         start_context := []
         relevance := []
         success := false
         error := some "Source content too short".data }, []) ∧
    extract_evidence_passage "too short a source".data "claim".data false none
        (Except.ok ⟨"p".data, [], [], none⟩) =
      ({ passage := []
         context_passage := none
         start_context := []
         relevance := []
         success := false
         error := some "Source content too short".data }, []) := by
  exact ⟨c5_source_too_short _ _ _ _ _ (by decide),
    c5_source_too_short _ _ _ _ _ (by decide)⟩

/-- C6: when the LLM call inside `extract_evidence_passage` fails (for any
error), the function returns — it does not raise — the first 500 characters
of the source as the passage, with `success = false` and the error message
attached. -/
theorem c6_llm_failure_fallback (content claim : List Char)
    (rateReason : Option (List Char)) (e : List Char)
    (h : ¬(content = [] ∨ (pyStrip content).length < 100)) :
    extract_evidence_passage content claim true rateReason
        (Except.error e) =
      ({ passage := content.take 500
         context_passage := some
           (build_context_passage content (content.take 500) 0 0 2)
         start_context := "Extraction failed - using start of document".data
         relevance := "Automatic fallback".data
         success := false
         error := some e }, []) := by
  unfold extract_evidence_passage
  rw [if_neg h, if_neg (by simp)]

/-- Witness for C6: a 112-character source with a failing LLM call yields the
first-500-characters fallback, unsuccessful, with the error attached. -/
theorem c6_llm_failure_fallback_witness :
    extract_evidence_passage
        "The Arctic cod is a key forage species in northern marine ecosystems. It links plankton to seabirds and mammals.".data
        "claim".data true none (Except.error "API timeout".data) =
      ({ passage :=
          "The Arctic cod is a key forage species in northern marine ecosystems. It links plankton to seabirds and mammals.".data.take
            500
         context_passage := some
           (build_context_passage
             "The Arctic cod is a key forage species in northern marine ecosystems. It links plankton to seabirds and mammals.".data
             ("The Arctic cod is a key forage species in northern marine ecosystems. It links plankton to seabirds and mammals.".data.take
               500)
             0 0 2)
         start_context := "Extraction failed - using start of document".data
         relevance := "Automatic fallback".data
         success := false
         error := some "API timeout".data }, []) :=
  c6_llm_failure_fallback _ _ _ _ (by decide)

/-- C3: whenever `extract_evidence_passage` reports `success = true`, the
returned passage is non-empty and is found within the source document —
either as an exact substring of the source, or as the passage recovered by
the fuzzy bag-of-words matcher from the LLM's candidate quotation. -/
theorem c3_success_implies_passage_found (content claim : List Char)
    (rateAllowed : Bool) (rateReason : Option (List Char))
    (llm : Except (List Char) LlmExtract)
    (h : (extract_evidence_passage content claim rateAllowed rateReason
      llm).1.success = true) :
    (extract_evidence_passage content claim rateAllowed rateReason
        llm).1.passage ≠ [] ∧
      ((extract_evidence_passage content claim rateAllowed rateReason
          llm).1.passage <:+: content ∨
        ∃ r, llm = Except.ok r ∧
          (extract_evidence_passage content claim rateAllowed rateReason
              llm).1.passage =
            (find_similar_passage r.passage content 50).1) := by
  unfold extract_evidence_passage at h ⊢
  by_cases h0 : content = [] ∨ (pyStrip content).length < 100
  · rw [if_pos h0] at h
    exact absurd h (by simp)
  · rw [if_neg h0] at h ⊢
    by_cases hra : rateAllowed = false
    · rw [if_pos hra] at h
      exact absurd h (by simp)
    · rw [if_neg hra] at h ⊢
      match llm with
      | Except.error e => exact absurd h (by simp)
      | Except.ok r =>
        simp only at h ⊢
        by_cases hf : r.passage ≠ [] ∧
            (if r.passage ≠ [] then pyFind content r.passage else -1) = -1
        · rw [if_pos hf] at h ⊢
          refine ⟨of_decide_eq_true h, Or.inr ⟨r, rfl, rfl⟩⟩
        · rw [if_neg hf] at h ⊢
          have hp : r.passage ≠ [] := of_decide_eq_true h
          refine ⟨hp, Or.inl ?_⟩
          rw [if_pos hp] at hf
          push_neg at hf
          exact pyFind_ne_neg_one_isInfix (hf hp)

/-- Witness for C3: the LLM proposes a verbatim substring of a 109-character
source; the successful result's passage is found in the source. -/
theorem c3_success_implies_passage_found_witness :
    (extract_evidence_passage
        "Permafrost thaw releases ancient carbon into the atmosphere and accelerates climate feedback loops worldwide.".data
        "claim".data true none
        (Except.ok ⟨"releases ancient carbon".data, [], [], some 120⟩)).1.passage ≠
      [] ∧
    ((extract_evidence_passage
          "Permafrost thaw releases ancient carbon into the atmosphere and accelerates climate feedback loops worldwide.".data
          "claim".data true none
          (Except.ok ⟨"releases ancient carbon".data, [], [], some 120⟩)).1.passage <:+:
        "Permafrost thaw releases ancient carbon into the atmosphere and accelerates climate feedback loops worldwide.".data ∨
      ∃ r, (Except.ok ⟨"releases ancient carbon".data, [], [], some 120⟩ :
            Except (List Char) LlmExtract) = Except.ok r ∧
        (extract_evidence_passage
            "Permafrost thaw releases ancient carbon into the atmosphere and accelerates climate feedback loops worldwide.".data
            "claim".data true none
            (Except.ok ⟨"releases ancient carbon".data, [], [], some 120⟩)).1.passage =
          (find_similar_passage r.passage
            "Permafrost thaw releases ancient carbon into the atmosphere and accelerates climate feedback loops worldwide.".data
            50).1) :=
  c3_success_implies_passage_found _ _ _ _ _ (by decide)

/-- C4: if the LLM call raised during a `chat` request that reached it
(limits passed, both cache tiers missed), the error is surfaced as a
structured failure and the state — exact cache, semantic response
collection, memory collection, conversation log and everything else — is
completely unchanged. -/
theorem c4_no_writes_on_llm_error (md5hex : List Char → List Char)
    (st : AgentState) (message session_id : String)
    (use_cache use_memory : Bool) (o : ChatOracle) (e : String)
    (hadmin : o.adminCheck.allowed = true)
    (hrate : get_rate_limit st.rate session_id ≠ 0)
    (hc1 : use_cache = true →
      get_cached_response md5hex st.redis message = none)
    (hc2 : use_cache = true →
      get_semantic_cache st.respColl o.dist = none)
    (hllm : o.llm = Except.error e) :
    chat md5hex st message session_id use_cache use_memory o =
      (chatFailure ("OpenAI API error: " ++ e) session_id, st) := by
  unfold chat
  rw [if_neg (by simp [hadmin]), if_neg hrate]
  have h1 : (if use_cache then get_cached_response md5hex st.redis message
      else none) = none := by
    cases use_cache with
    | false => rfl
    | true => simpa using hc1 rfl
  have h2 : (if use_cache then get_semantic_cache st.respColl o.dist
      else none) = none := by
    cases use_cache with
    | false => rfl
    | true => simpa using hc2 rfl
  rw [h1, h2, hllm]

/-- Witness for C4: an empty state with a failing LLM call returns the
structured error and leaves the state untouched. -/
theorem c4_no_writes_on_llm_error_witness :
    chat id ⟨[], [], [], [], [], [], []⟩ "What is Arctic cod?" "sess" true true
        ⟨⟨true, none⟩, true, fun _ => 1, [], Except.error "boom"⟩ =
      (chatFailure ("OpenAI API error: " ++ "boom") "sess",
        ⟨[], [], [], [], [], [], []⟩) :=
  c4_no_writes_on_llm_error _ _ _ _ _ _ _ _ (by decide) (by decide)
    (fun _ => by decide) (fun _ => rfl) rfl

/-- C10: both the admin quota gate and the per-session rate counter are
checked before either cache tier is read — whenever either check denies the
request, `chat` returns the structured denial with the state unchanged,
whatever the cache contents (so even a validly cached answer is denied). -/
theorem c10_limit_checks_precede_cache (md5hex : List Char → List Char)
    (st : AgentState) (message session_id : String)
    (use_cache use_memory : Bool) (o : ChatOracle) :
    (o.adminCheck.allowed = false →
      chat md5hex st message session_id use_cache use_memory o =
        ({ chatFailure (o.adminCheck.reason.getD "Rate limit exceeded")
            session_id with rate_limit_info := some o.adminCheck }, st)) ∧
    (o.adminCheck.allowed = true → get_rate_limit st.rate session_id = 0 →
      chat md5hex st message session_id use_cache use_memory o =
        (chatFailure "Rate limit exceeded. Please try again later."
          session_id, st)) := by
  constructor
  · intro hadmin
    unfold chat
    rw [if_pos hadmin]
  · intro hadmin hrate
    unfold chat
    rw [if_neg (by simp [hadmin]), if_pos hrate]

/-- Witness for C10: with a valid exact-cache entry for the query in the
state, an admin denial and an exhausted per-session counter each yield the
structured denial with the cached answer never consulted. -/
theorem c10_limit_checks_precede_cache_witness :
    chat id ⟨[("agent:cache:what is arctic cod?", "a fish")], [], [], [], [],
        [], []⟩ "What is Arctic cod?" "sess" true true
        ⟨⟨false, some "Daily token limit reached (100,000/100,000)"⟩, true,
          fun _ => 1, [], Except.ok ("fresh", 7)⟩ =
      ({ chatFailure "Daily token limit reached (100,000/100,000)" "sess"
          with rate_limit_info :=
            some ⟨false, some "Daily token limit reached (100,000/100,000)"⟩ },
        ⟨[("agent:cache:what is arctic cod?", "a fish")], [], [], [], [], [],
          []⟩) ∧
    chat id ⟨[("agent:cache:what is arctic cod?", "a fish")],
        [("agent:ratelimit:sess", 100)], [], [], [], [], []⟩
        "What is Arctic cod?" "sess" true true
        ⟨⟨true, none⟩, true, fun _ => 1, [], Except.ok ("fresh", 7)⟩ =
      (chatFailure "Rate limit exceeded. Please try again later." "sess",
        ⟨[("agent:cache:what is arctic cod?", "a fish")],
          [("agent:ratelimit:sess", 100)], [], [], [], [], []⟩) :=
  ⟨(c10_limit_checks_precede_cache _ _ _ _ _ _ _).1 rfl,
    (c10_limit_checks_precede_cache _ _ _ _ _ _ _).2 rfl (by decide)⟩

theorem lookup_increment_rate_limit (counters : List (String × Nat))
    (sid : String) :
    (increment_rate_limit counters sid).lookup ("agent:ratelimit:" ++ sid) =
      some (((counters.lookup ("agent:ratelimit:" ++ sid)).getD 0) + 1) := by
  unfold increment_rate_limit kvSet
  simp [List.lookup]

theorem lookup_iterate_increment (sid : String) (n : Nat) :
    ∀ (counters : List (String × Nat)) (c : Nat),
    counters.lookup ("agent:ratelimit:" ++ sid) = some c →
    ((fun cs => increment_rate_limit cs sid)^[n] counters).lookup
      ("agent:ratelimit:" ++ sid) = some (c + n) := by
  induction n with
  | zero =>
    intro cs c h
    simpa using h
  | succ k ih =>
    intro cs c h
    rw [Function.iterate_succ_apply]
    have h1 := lookup_increment_rate_limit cs sid
    rw [h] at h1
    have h2 := ih (increment_rate_limit cs sid) (c + 1) (by simpa using h1)
    rw [h2]
    congr 1
    omega

/-- C8: under the 100-per-rolling-hour per-caller counter, 100 recorded
requests from a fresh caller bring the counter to 100, and a further `chat`
request while that counter is at least 100 (and the admin gate passes) is
denied with the per-session rate-limit reason and an unchanged state —
before any cache read or generation (the result does not depend on the
caches or the LLM oracle). -/
theorem c8_per_caller_limit_denial (md5hex : List Char → List Char)
    (st : AgentState) (message session_id : String)
    (use_cache use_memory : Bool) (o : ChatOracle) :
    (st.rate.lookup ("agent:ratelimit:" ++ session_id) = none →
      ((fun cs => increment_rate_limit cs session_id)^[100] st.rate).lookup
        ("agent:ratelimit:" ++ session_id) = some 100) ∧
    (∀ c, st.rate.lookup ("agent:ratelimit:" ++ session_id) = some c →
      100 ≤ c → o.adminCheck.allowed = true →
      chat md5hex st message session_id use_cache use_memory o =
        (chatFailure "Rate limit exceeded. Please try again later."
          session_id, st)) := by
  constructor
  · intro h0
    rw [Function.iterate_succ_apply]
    have h1 := lookup_increment_rate_limit st.rate session_id
    rw [h0] at h1
    have h2 := lookup_iterate_increment session_id 99
      (increment_rate_limit st.rate session_id) 1 (by simpa using h1)
    rw [h2]
  · intro c hc hge hadmin
    have hz : get_rate_limit st.rate session_id = 0 := by
      unfold get_rate_limit
      rw [hc]
      show 100 - c = 0
      omega
    unfold chat
    rw [if_neg (by simp [hadmin]), if_pos hz]

/-- Witness for C8: 100 increments from a fresh counter reach exactly 100,
and the next request with the counter at 100 is denied with the per-session
reason, state unchanged. -/
theorem c8_per_caller_limit_denial_witness :
    ((fun cs => increment_rate_limit cs "sess")^[100]
        ([] : List (String × Nat))).lookup ("agent:ratelimit:" ++ "sess") =
      some 100 ∧
    chat id ⟨[], [("agent:ratelimit:sess", 100)], [], [], [], [], []⟩
        "What is Arctic cod?" "sess" true true
        ⟨⟨true, none⟩, true, fun _ => 1, [], Except.ok ("fresh", 7)⟩ =
      (chatFailure "Rate limit exceeded. Please try again later." "sess",
        ⟨[], [("agent:ratelimit:sess", 100)], [], [], [], [], []⟩) := by
  constructor
  · exact (c8_per_caller_limit_denial id
      ⟨[], [], [], [], [], [], []⟩ "What is Arctic cod?" "sess" true true
      ⟨⟨true, none⟩, true, fun _ => 1, [], Except.ok ("fresh", 7)⟩).1 rfl
  · exact (c8_per_caller_limit_denial id
      ⟨[], [("agent:ratelimit:sess", 100)], [], [], [], [], []⟩
      "What is Arctic cod?" "sess" true true
      ⟨⟨true, none⟩, true, fun _ => 1, [], Except.ok ("fresh", 7)⟩).2 100
      (by decide) (by decide) rfl

/-- Counterexample for C7: a `chat` call answered from the exact cache
returns success, yet the memory collection stays empty — the query and
response are *not* stored as MemoryFragments, contradicting "for every call
to chat that returns a successful response … both the query and the returned
response are stored in the vector memory collection". -/
theorem c7_counterexample_cache_hit_stores_nothing :
    (chat id ⟨[("agent:cache:hi", "cached answer")], [], [], [], [], [], []⟩
        "hi" "sess" true true
        ⟨⟨true, none⟩, true, fun _ => 1, [],
          Except.error "generation unavailable"⟩).1.success = true ∧
    (chat id ⟨[("agent:cache:hi", "cached answer")], [], [], [], [], [], []⟩
        "hi" "sess" true true
        ⟨⟨true, none⟩, true, fun _ => 1, [],
          Except.error "generation unavailable"⟩).2.memColl = [] := by
  constructor
  · rfl
  · rfl

/-- C7 (amended): MemoryFragments for both the user message and the
assistant message are created exactly on successful fresh generation — both
the query and the response are appended to the memory collection — while
responses served from the exact or the semantic cache return success without
writing any memory fragment. -/
theorem c7_memory_fragments_on_generation_only
    (md5hex : List Char → List Char) (st : AgentState)
    (message session_id : String) (use_memory : Bool) (o : ChatOracle)
    (hadmin : o.adminCheck.allowed = true)
    (hrate : get_rate_limit st.rate session_id ≠ 0) :
    (∀ (use_cache : Bool) (response : String) (tokens : Nat),
      (use_cache = true →
        get_cached_response md5hex st.redis message = none) →
      (use_cache = true → get_semantic_cache st.respColl o.dist = none) →
      o.llm = Except.ok (response, tokens) →
      (chat md5hex st message session_id use_cache use_memory o).1.success =
        true ∧
      (chat md5hex st message session_id use_cache use_memory o).2.memColl =
        st.memColl ++ [⟨message, session_id, "user"⟩,
          ⟨response, session_id, "assistant"⟩]) ∧
    (∀ r, get_cached_response md5hex st.redis message = some r →
      (chat md5hex st message session_id true use_memory o).1.success =
        true ∧
      (chat md5hex st message session_id true use_memory o).2.memColl =
        st.memColl) ∧
    (get_cached_response md5hex st.redis message = none →
      ∀ r s, get_semantic_cache st.respColl o.dist = some (r, s) →
      (chat md5hex st message session_id true use_memory o).1.success =
        true ∧
      (chat md5hex st message session_id true use_memory o).2.memColl =
        st.memColl) := by
  refine ⟨?_, ?_, ?_⟩
  · intro use_cache response tokens hc1 hc2 hllm
    unfold chat
    rw [if_neg (by simp [hadmin]), if_neg hrate]
    have h1 : (if use_cache then get_cached_response md5hex st.redis message
        else none) = none := by
      cases use_cache with
      | false => rfl
      | true => simpa using hc1 rfl
    have h2 : (if use_cache then get_semantic_cache st.respColl o.dist
        else none) = none := by
      cases use_cache with
      | false => rfl
      | true => simpa using hc2 rfl
    rw [h1, h2, hllm]
    refine ⟨rfl, ?_⟩
    simp only [track_usage_chat, log_conversation, store_memory,
      cache_response_semantic, update_stats, increment_rate_limit]
    cases o.usageEnabled <;> cases use_cache <;>
      simp [List.append_assoc]
  · intro r hr
    unfold chat
    rw [if_neg (by simp [hadmin]), if_neg hrate]
    simp only [if_true]
    rw [hr]
    exact ⟨rfl, rfl⟩
  · intro hmiss r s hsem
    unfold chat
    rw [if_neg (by simp [hadmin]), if_neg hrate]
    simp only [if_true]
    rw [hmiss, hsem]
    exact ⟨rfl, rfl⟩

/-- Witness for C7 (amended): fresh generation appends both fragments; an
exact-cache hit and a semantic-cache hit each leave the memory collection
empty. -/
theorem c7_memory_fragments_on_generation_only_witness :
    ((chat id ⟨[], [], [], [], [], [], []⟩ "q" "sess" true true
        ⟨⟨true, none⟩, true, fun _ => 1, [],
          Except.ok ("resp", 5)⟩).2.memColl =
      [] ++ [⟨"q", "sess", "user"⟩, ⟨"resp", "sess", "assistant"⟩]) ∧
    ((chat id ⟨[("agent:cache:q", "old")], [], [], [], [], [], []⟩ "q" "sess"
        true true
        ⟨⟨true, none⟩, true, fun _ => 1, [],
          Except.ok ("resp", 5)⟩).2.memColl = []) ∧
    ((chat id ⟨[], [], [⟨"semresp", "q0", "assistant", "s2"⟩], [], [], [],
        []⟩ "q" "sess" true true
        ⟨⟨true, none⟩, true, fun _ => 0, [],
          Except.ok ("resp", 5)⟩).2.memColl = []) := by
  refine ⟨?_, ?_, ?_⟩
  · exact ((c7_memory_fragments_on_generation_only id
      ⟨[], [], [], [], [], [], []⟩ "q" "sess" true
      ⟨⟨true, none⟩, true, fun _ => 1, [], Except.ok ("resp", 5)⟩ rfl
      (by decide)).1 true "resp" 5 (fun _ => rfl) (fun _ => rfl) rfl).2
  · exact ((c7_memory_fragments_on_generation_only id
      ⟨[("agent:cache:q", "old")], [], [], [], [], [], []⟩ "q" "sess" true
      ⟨⟨true, none⟩, true, fun _ => 1, [], Except.ok ("resp", 5)⟩ rfl
      (by decide)).2.1 "old" (by decide)).2
  · exact ((c7_memory_fragments_on_generation_only id
      ⟨[], [], [⟨"semresp", "q0", "assistant", "s2"⟩], [], [], [], []⟩ "q"
      "sess" true
      ⟨⟨true, none⟩, true, fun _ => 0, [], Except.ok ("resp", 5)⟩ rfl
      (by decide)).2.2 rfl "semresp" (1 - 0)
      (by
        unfold get_semantic_cache
        rw [show nearestAssistant [⟨"semresp", "q0", "assistant", "s2"⟩]
            (fun _ => 0) = some (⟨"semresp", "q0", "assistant", "s2"⟩, 0)
          from rfl]
        show (if (0 : ℚ) < SEMANTIC_CACHE_THRESHOLD then
          some ("semresp", (1 : ℚ) - 0) else none) = some ("semresp", 1 - 0)
        rw [if_pos (by norm_num [SEMANTIC_CACHE_THRESHOLD])])).2

/-- Characterization of the `_find_similar_passage` loop: folding
`fuzzyStep` over any list of positions either leaves the accumulator
untouched (when every position scores below the threshold or no better than
the incoming best), or lands exactly on a maximal position that meets the
threshold and strictly beats the incoming best. -/
theorem fuzzy_foldl_characterization (tsig sw : List (List Char))
    (wsize : Nat) (threshold : ℚ) (l : List Nat) :
    ∀ acc : FuzzyAcc,
      (l.foldl (fuzzyStep tsig sw wsize threshold) acc = acc ∧
        ∀ i ∈ l, windowScore tsig sw wsize i ≤ acc.best_score ∨
          windowScore tsig sw wsize i < threshold) ∨
      (∃ i ∈ l, threshold ≤ windowScore tsig sw wsize i ∧
        acc.best_score < windowScore tsig sw wsize i ∧
        l.foldl (fuzzyStep tsig sw wsize threshold) acc =
          ⟨expandedWindow sw wsize i, windowScore tsig sw wsize i,
            windowCharOffset sw i⟩ ∧
        ∀ j ∈ l, windowScore tsig sw wsize j ≤
          windowScore tsig sw wsize i) := by
  induction l with
  | nil =>
    intro acc
    left
    exact ⟨rfl, by simp⟩
  | cons i t ih =>
    intro acc
    rw [List.foldl_cons]
    by_cases hstep : windowScore tsig sw wsize i > acc.best_score ∧
        windowScore tsig sw wsize i ≥ threshold
    · have hstepEq : fuzzyStep tsig sw wsize threshold acc i =
          ⟨expandedWindow sw wsize i, windowScore tsig sw wsize i,
            windowCharOffset sw i⟩ := by
        unfold fuzzyStep
        rw [if_pos hstep]
      rw [hstepEq]
      rcases ih ⟨expandedWindow sw wsize i, windowScore tsig sw wsize i,
          windowCharOffset sw i⟩ with ⟨heq, hall⟩ | ⟨j, hj, hge, hgt, heq, hall⟩
      · right
        refine ⟨i, List.mem_cons_self i t, hstep.2, hstep.1, heq, ?_⟩
        intro j hj
        rcases List.mem_cons.mp hj with rfl | hjt
        · exact le_refl _
        · rcases hall j hjt with h | h
          · exact h
          · exact le_of_lt (lt_of_lt_of_le h hstep.2)
      · right
        refine ⟨j, List.mem_cons_of_mem _ hj, hge,
          lt_trans hstep.1 hgt, heq, ?_⟩
        intro k hk
        rcases List.mem_cons.mp hk with rfl | hkt
        · exact le_of_lt hgt
        · exact hall k hkt
    · have hstepEq : fuzzyStep tsig sw wsize threshold acc i = acc := by
        unfold fuzzyStep
        rw [if_neg hstep]
      rw [hstepEq]
      have hsmall : windowScore tsig sw wsize i ≤ acc.best_score ∨
          windowScore tsig sw wsize i < threshold := by
        by_cases h1 : windowScore tsig sw wsize i ≤ acc.best_score
        · exact Or.inl h1
        · push_neg at hstep h1
          exact Or.inr (hstep h1)
      rcases ih acc with ⟨heq, hall⟩ | ⟨j, hj, hge, hgt, heq, hall⟩
      · left
        refine ⟨heq, ?_⟩
        intro j hj
        rcases List.mem_cons.mp hj with rfl | hjt
        · exact hsmall
        · exact hall j hjt
      · right
        refine ⟨j, List.mem_cons_of_mem _ hj, hge, hgt, heq, ?_⟩
        intro k hk
        rcases List.mem_cons.mp hk with rfl | hkt
        · rcases hsmall with h | h
          · exact le_of_lt (lt_of_le_of_lt h hgt)
          · exact le_of_lt (lt_of_lt_of_le h hge)
        · exact hall k hkt

/-- C2 (amended): the fuzzy matcher slides a window of
`max(candidate word count, 10)` words (not the bare candidate word count)
over the source's words, scores each position as the fraction of the
candidate's distinct case-insensitive words longer than 3 characters present
in the window, and — provided some window position scores at least 50% —
returns a maximal-scoring window expanded by 20 words on each side together
with the back-computed approximate character offset; when the candidate has
no significant words or no window reaches 50% (in particular when the source
has fewer words than the window), it returns the empty passage and
offset -1. -/
theorem c2_fuzzy_matcher_amended (target source : List Char) :
    (sigWords target = [] →
      find_similar_passage target source 50 = ([], -1)) ∧
    (sigWords target ≠ [] →
      ((∀ i ∈ fuzzyPositions (pySplit source)
            (max (pySplit target).length 10),
          windowScore (sigWords target) (pySplit source)
            (max (pySplit target).length 10) i < 50) →
        find_similar_passage target source 50 = ([], -1)) ∧
      (∀ i0 ∈ fuzzyPositions (pySplit source)
          (max (pySplit target).length 10),
        50 ≤ windowScore (sigWords target) (pySplit source)
            (max (pySplit target).length 10) i0 →
        ∃ i ∈ fuzzyPositions (pySplit source)
            (max (pySplit target).length 10),
          50 ≤ windowScore (sigWords target) (pySplit source)
              (max (pySplit target).length 10) i ∧
          (∀ j ∈ fuzzyPositions (pySplit source)
              (max (pySplit target).length 10),
            windowScore (sigWords target) (pySplit source)
                (max (pySplit target).length 10) j ≤
              windowScore (sigWords target) (pySplit source)
                (max (pySplit target).length 10) i) ∧
          find_similar_passage target source 50 =
            (expandedWindow (pySplit source)
                (max (pySplit target).length 10) i,
              windowCharOffset (pySplit source) i))) := by
  constructor
  · intro h
    simp only [find_similar_passage]
    rw [if_pos h]
  · intro h
    constructor
    · intro hall
      simp only [find_similar_passage]
      rw [if_neg h]
      rcases fuzzy_foldl_characterization (sigWords target) (pySplit source)
          (max (pySplit target).length 10) 50
          (fuzzyPositions (pySplit source) (max (pySplit target).length 10))
          ⟨[], 0, -1⟩ with ⟨heq, -⟩ | ⟨i, hi, hge, -, -, -⟩
      · rw [heq]
      · exact absurd hge (not_le.mpr (hall i hi))
    · intro i0 hi0 hge0
      simp only [find_similar_passage]
      rw [if_neg h]
      rcases fuzzy_foldl_characterization (sigWords target) (pySplit source)
          (max (pySplit target).length 10) 50
          (fuzzyPositions (pySplit source) (max (pySplit target).length 10))
          ⟨[], 0, -1⟩ with ⟨-, hall⟩ | ⟨i, hi, hge, -, heq, hall⟩
      · rcases hall i0 hi0 with h0 | h0
        · have h1 : windowScore (sigWords target) (pySplit source)
              (max (pySplit target).length 10) i0 ≤ 0 := h0
          linarith
        · linarith
      · refine ⟨i, hi, hge, hall, ?_⟩
        rw [heq]

/-- Counterexample for C2: for the candidate `"alpha beta"` (2 words, both
significant) and the source `"alpha beta gamma"`, the window sized to the
candidate's word count (2) at position 0 scores 100% ≥ 50% and position 0 is
a valid window position, yet `_find_similar_passage` returns the empty
passage and offset -1 — because the implementation sizes the window as
`max(candidate word count, 10) = 10`, which exceeds the source's 3 words. -/
theorem c2_counterexample_window_size :
    50 ≤ windowScore (sigWords "alpha beta".data)
        (pySplit "alpha beta gamma".data) (pySplit "alpha beta".data).length
        0 ∧
    0 ∈ fuzzyPositions (pySplit "alpha beta gamma".data)
        (pySplit "alpha beta".data).length ∧
    find_similar_passage "alpha beta".data "alpha beta gamma".data 50 =
      ([], -1) := by
  refine ⟨?_, by decide, ?_⟩
  · unfold windowScore
    rw [show ((sigWords "alpha beta".data).filter
        (fun w => w ∈ windowSig (pySplit "alpha beta gamma".data)
          (pySplit "alpha beta".data).length 0)).length = 2 from by decide]
    rw [show (sigWords "alpha beta".data).length = 2 from by decide]
    norm_num
  · simp only [find_similar_passage]
    rw [if_neg (by decide)]
    rw [show fuzzyPositions (pySplit "alpha beta gamma".data)
        (max (pySplit "alpha beta".data).length 10) = [] from by decide]
    rfl

/-- Witness for C2 (amended): a candidate with no significant words fails; a
source whose single window position scores 25% fails; a 10-word candidate
fully contained in a 12-word source has a maximal window position scoring at
least 50% and the function returns its expansion with the back-computed
offset. -/
theorem c2_fuzzy_matcher_amended_witness :
    find_similar_passage "a bc".data "some source text here".data 50 =
      ([], -1) ∧
    find_similar_passage "alpha beta gamma delta".data
      "alpha one two three four five six seven eight nine".data 50 =
      ([], -1) ∧
    ∃ i ∈ fuzzyPositions
        (pySplit
          "alpha bravo charlie delta echoes foxtrot golfs hotel india juliet kilos limas".data)
        (max (pySplit
          "alpha bravo charlie delta echoes foxtrot golfs hotel india juliet".data).length
          10),
      50 ≤ windowScore
          (sigWords
            "alpha bravo charlie delta echoes foxtrot golfs hotel india juliet".data)
          (pySplit
            "alpha bravo charlie delta echoes foxtrot golfs hotel india juliet kilos limas".data)
          (max (pySplit
            "alpha bravo charlie delta echoes foxtrot golfs hotel india juliet".data).length
            10) i ∧
      (∀ j ∈ fuzzyPositions
          (pySplit
            "alpha bravo charlie delta echoes foxtrot golfs hotel india juliet kilos limas".data)
          (max (pySplit
            "alpha bravo charlie delta echoes foxtrot golfs hotel india juliet".data).length
            10),
        windowScore
            (sigWords
              "alpha bravo charlie delta echoes foxtrot golfs hotel india juliet".data)
            (pySplit
              "alpha bravo charlie delta echoes foxtrot golfs hotel india juliet kilos limas".data)
            (max (pySplit
              "alpha bravo charlie delta echoes foxtrot golfs hotel india juliet".data).length
              10) j ≤
          windowScore
            (sigWords
              "alpha bravo charlie delta echoes foxtrot golfs hotel india juliet".data)
            (pySplit
              "alpha bravo charlie delta echoes foxtrot golfs hotel india juliet kilos limas".data)
            (max (pySplit
              "alpha bravo charlie delta echoes foxtrot golfs hotel india juliet".data).length
              10) i) ∧
      find_similar_passage
          "alpha bravo charlie delta echoes foxtrot golfs hotel india juliet".data
          "alpha bravo charlie delta echoes foxtrot golfs hotel india juliet kilos limas".data
          50 =
        (expandedWindow
            (pySplit
              "alpha bravo charlie delta echoes foxtrot golfs hotel india juliet kilos limas".data)
            (max (pySplit
              "alpha bravo charlie delta echoes foxtrot golfs hotel india juliet".data).length
              10) i,
          windowCharOffset
            (pySplit
              "alpha bravo charlie delta echoes foxtrot golfs hotel india juliet kilos limas".data)
            i) := by
  refine ⟨?_, ?_, ?_⟩
  · exact (c2_fuzzy_matcher_amended "a bc".data
      "some source text here".data).1 (by decide)
  · refine ((c2_fuzzy_matcher_amended "alpha beta gamma delta".data
      "alpha one two three four five six seven eight nine".data).2
      (by decide)).1 ?_
    intro i hi
    rw [show fuzzyPositions
        (pySplit "alpha one two three four five six seven eight nine".data)
        (max (pySplit "alpha beta gamma delta".data).length 10) = [0]
      from by decide] at hi
    rw [List.mem_singleton.mp hi]
    unfold windowScore
    rw [show ((sigWords "alpha beta gamma delta".data).filter
        (fun w => w ∈ windowSig
          (pySplit "alpha one two three four five six seven eight nine".data)
          (max (pySplit "alpha beta gamma delta".data).length 10) 0)).length =
        1 from by decide]
    rw [show (sigWords "alpha beta gamma delta".data).length = 4 from
      by decide]
    norm_num
  · refine ((c2_fuzzy_matcher_amended
      "alpha bravo charlie delta echoes foxtrot golfs hotel india juliet".data
      "alpha bravo charlie delta echoes foxtrot golfs hotel india juliet kilos limas".data).2
      (by decide)).2 0 (by decide) ?_
    unfold windowScore
    rw [show ((sigWords
        "alpha bravo charlie delta echoes foxtrot golfs hotel india juliet".data).filter
        (fun w => w ∈ windowSig
          (pySplit
            "alpha bravo charlie delta echoes foxtrot golfs hotel india juliet kilos limas".data)
          (max (pySplit
            "alpha bravo charlie delta echoes foxtrot golfs hotel india juliet".data).length
            10) 0)).length = 10 from by decide]
    rw [show (sigWords
        "alpha bravo charlie delta echoes foxtrot golfs hotel india juliet".data).length =
        10 from by decide]
    norm_num

end Agents
